import Mathlib

/-!
Verification of the LP/MILP teaching notebooks
(`Linear_programming_optimization_with_Python_final.ipynb` and the rice MILP
notebook).  The notebooks build small linear and mixed-integer programs from
literal coefficient tables, hand them to external solvers, and print the
returned status, objective and variable values.  This file embeds, directly
from the notebook sources,

* the rice-allocation MILP (yield table, equality constraints, printed
  solutions),
* the Problem 1-8 constraint systems relevant to the claims,
* the per-cell result-printing blocks (as functions from solver status and
  solution to the list of printed lines),
* the syntactic form of every constraint and variable declaration in both
  notebooks, and
* the cell-to-cell state threading of the rice MILP notebook,

and proves or refutes the specification claims about them.
-/

namespace LPNotebooks

/-! ## Rice-allocation MILP (rice notebook cells 3-4, Problem 8 of the main
notebook)

Source, rice notebook: `fields = ['I', 'II', 'III']`,
`rice_types = ['IR8', 'CBC', 'IR132']`, the `yield_matrix` literal, the six
`solver.Add(... == ...)` equality constraints, and the objective
`solver.Sum(x[(f, r)] * yield_matrix[f][r] ...)`. -/

inductive Field where
  | I | II | III
deriving DecidableEq, Repr

inductive Rice where
  | IR8 | CBC | IR132
deriving DecidableEq, Repr

def fields : List Field := [.I, .II, .III]

def rice_types : List Rice := [.IR8, .CBC, .IR132]

/-- The `yield_matrix` literal of the rice notebook:
`{'I': {'IR8': 4, 'CBC': 6, 'IR132': 5}, 'II': {'IR8': 8, 'CBC': 9, 'IR132': 4},
'III': {'IR8': 6, 'CBC': 7, 'IR132': 6}}`.  The main notebook's
`productivity8a = [[4, 8, 6], [6, 9, 7], [5, 4, 6]]` is the same table indexed
rice-major (`productivity8a[r][f] = yield_matrix[f][r]`). -/
def yield_matrix : Field → Rice → ℕ
  | .I, .IR8 => 4 | .I, .CBC => 6 | .I, .IR132 => 5
  | .II, .IR8 => 8 | .II, .CBC => 9 | .II, .IR132 => 4
  | .III, .IR8 => 6 | .III, .CBC => 7 | .III, .IR132 => 6

/-- Objective `solver.Sum(x[(f, r)] * yield_matrix[f][r] for f in fields for r
in rice_types)` over non-negative integer hectare variables. -/
def totalYield (x : Field → Rice → ℕ) : ℕ :=
  (fields.map (fun f => (rice_types.map (fun r => x f r * yield_matrix f r)).sum)).sum

/-- The six equality constraints of the rice problem: per-rice totals
`solver.Add(solver.Sum(x[(f, t)] for f in fields) == 30 / 20 / 40)` and
per-field totals `solver.Add(solver.Sum(x[(g, r)] for r in rice_types) ==
25 / 25 / 40)`. -/
def riceFeasible (x : Field → Rice → ℕ) : Prop :=
  (fields.map (fun f => x f .IR8)).sum = 30 ∧
  (fields.map (fun f => x f .CBC)).sum = 20 ∧
  (fields.map (fun f => x f .IR132)).sum = 40 ∧
  (rice_types.map (fun r => x .I r)).sum = 25 ∧
  (rice_types.map (fun r => x .II r)).sum = 25 ∧
  (rice_types.map (fun r => x .III r)).sum = 40

instance (x : Field → Rice → ℕ) : Decidable (riceFeasible x) := by
  unfold riceFeasible; infer_instance

/-- The assignment printed by the rice notebook (identical in its OR-tools
cell, its CPLEX scenario-b cell and its pulp cells):
`I: IR8 0, CBC 20, IR132 5; II: IR8 25, CBC 0, IR132 0;
III: IR8 5, CBC 0, IR132 35`. -/
def ricePrintedMilpNb : Field → Rice → ℕ
  | .I, .IR8 => 0 | .I, .CBC => 20 | .I, .IR132 => 5
  | .II, .IR8 => 25 | .II, .CBC => 0 | .II, .IR132 => 0
  | .III, .IR8 => 5 | .III, .CBC => 0 | .III, .IR132 => 35

/-- The assignment printed by the main notebook's `LP_Problem_8a` and
`LP_Problem_8b` cells (`x[i][j]`, rice-major:
`x[0] = [0, 25, 5], x[1] = [0, 0, 20], x[2] = [25, 0, 15]`), re-indexed
field-major. -/
def ricePrintedMainNb : Field → Rice → ℕ
  | .I, .IR8 => 0 | .I, .CBC => 0 | .I, .IR132 => 25
  | .II, .IR8 => 25 | .II, .CBC => 0 | .II, .IR132 => 0
  | .III, .IR8 => 5 | .III, .CBC => 20 | .III, .IR132 => 15

/-- `productivity8b = [[0, 8, 6], [6, 9, 7], [5, 4, 6]]` of `LP_Problem_8b`:
the scenario-b objective that zeroes the yield of IR8 on field I
(re-indexed field-major here, like `yield_matrix`). -/
def productivity8b : Field → Rice → ℕ
  | .I, .IR8 => 0 | .I, .CBC => 6 | .I, .IR132 => 5
  | .II, .IR8 => 8 | .II, .CBC => 9 | .II, .IR132 => 4
  | .III, .IR8 => 6 | .III, .CBC => 7 | .III, .IR132 => 6

/-- Objective of `LP_Problem_8b`: `productivity8b[i][j] * x[i][j]` summed. -/
def totalYield8b (x : Field → Rice → ℕ) : ℕ :=
  (fields.map (fun f => (rice_types.map (fun r => x f r * productivity8b f r)).sum)).sum

/-- Shared upper bound: every assignment satisfying the six rice/field
equality constraints has total yield at most 585. -/
theorem totalYield_le_of_riceFeasible (x : Field → Rice → ℕ)
    (h : riceFeasible x) : totalYield x ≤ 585 := by
  obtain ⟨h1, h2, h3, h4, h5, h6⟩ := h
  simp only [totalYield, fields, rice_types, List.map_cons, List.map_nil,
    List.sum_cons, List.sum_nil, yield_matrix] at *
  omega

/-- C1: for the rice-allocation problem (yield matrix I:{IR8:4,CBC:6,IR132:5},
II:{IR8:8,CBC:9,IR132:4}, III:{IR8:6,CBC:7,IR132:6}; per-rice totals IR8=30,
CBC=20, IR132=40; per-field totals I=25, II=25, III=40, all equalities over
non-negative integer hectare variables), the maximum total yield over all
feasible assignments equals 585, and the assignment each notebook prints
attains it. -/
theorem rice_max_yield_585 :
    (∀ x : Field → Rice → ℕ, riceFeasible x → totalYield x ≤ 585) ∧
    riceFeasible ricePrintedMilpNb ∧ totalYield ricePrintedMilpNb = 585 ∧
    riceFeasible ricePrintedMainNb ∧ totalYield ricePrintedMainNb = 585 := by
  refine ⟨totalYield_le_of_riceFeasible, ?_, ?_, ?_, ?_⟩ <;> decide

/-- Witness for C1: the concrete printed assignment of the rice notebook is
feasible, and instantiating the universal upper bound at it gives a bound its
yield indeed meets. -/
theorem rice_max_yield_585_witness :
    riceFeasible ricePrintedMilpNb ∧ totalYield ricePrintedMilpNb ≤ 585 :=
  ⟨by decide, rice_max_yield_585.1 ricePrintedMilpNb (by decide)⟩

/-- C9: restricting the rice problem so that no IR8 is planted on field I,
either as the extra constraint `x[('I', 'IR8')] == 0` (rice notebook
scenario b) or by zeroing the yield coefficient (`productivity8b` of
`LP_Problem_8b`), leaves the optimum at 585, attained by the printed
assignments (which already plant no IR8 on field I). -/
theorem rice_restricted_max_585 :
    (∀ x : Field → Rice → ℕ, riceFeasible x → x .I .IR8 = 0 → totalYield x ≤ 585) ∧
    riceFeasible ricePrintedMilpNb ∧ ricePrintedMilpNb .I .IR8 = 0 ∧
    totalYield ricePrintedMilpNb = 585 ∧
    (∀ x : Field → Rice → ℕ, riceFeasible x → totalYield8b x ≤ 585) ∧
    riceFeasible ricePrintedMainNb ∧ totalYield8b ricePrintedMainNb = 585 := by
  refine ⟨fun x h _ => totalYield_le_of_riceFeasible x h, by decide, by decide,
    by decide, fun x h => ?_, by decide, by decide⟩
  obtain ⟨h1, h2, h3, h4, h5, h6⟩ := h
  simp only [totalYield8b, fields, rice_types, List.map_cons, List.map_nil,
    List.sum_cons, List.sum_nil, productivity8b] at *
  omega

/-- Witness for C9: both universal bounds instantiated at the concrete printed
assignments, hypotheses discharged by evaluation. -/
theorem rice_restricted_max_585_witness :
    totalYield ricePrintedMilpNb ≤ 585 ∧ totalYield8b ricePrintedMainNb ≤ 585 :=
  ⟨rice_restricted_max_585.1 ricePrintedMilpNb (by decide) (by decide),
   rice_restricted_max_585.2.2.2.2.1 ricePrintedMainNb (by decide)⟩

/-! ## Problem 4 (main notebook `LP_Problem_4`)

Source: variables `x1..x4` with `lowBound=0, cat="Integer"`, objective
`30*x1 + 25*x2 + 28*x3 + 20*x4`, constraints `x1 + x2 == 32`,
`x3 + x4 == 20`, `30*x1 + 28*x3 == 25*x2 + 20*x4`.  pulp reports status
`Infeasible` for the integer program. -/

/-- The Problem 4 constraint system over non-negative integers
(non-negativity is the `lowBound=0` of each variable, integrality its
`cat="Integer"`; ℕ carries both). -/
def p4FeasibleInt (x1 x2 x3 x4 : ℕ) : Prop :=
  x1 + x2 = 32 ∧ x3 + x4 = 20 ∧ 30 * x1 + 28 * x3 = 25 * x2 + 20 * x4

/-- The same constraint system over non-negative reals (the LP relaxation
obtained by dropping `cat="Integer"`). -/
def p4FeasibleReal (x1 x2 x3 x4 : ℝ) : Prop :=
  0 ≤ x1 ∧ 0 ≤ x2 ∧ 0 ≤ x3 ∧ 0 ≤ x4 ∧
  x1 + x2 = 32 ∧ x3 + x4 = 20 ∧ 30 * x1 + 28 * x3 = 25 * x2 + 20 * x4

/-- C10: the Problem 4 constraint system `x1+x2 = 32`, `x3+x4 = 20`,
`30*x1 + 28*x3 = 25*x2 + 20*x4` has no solution in non-negative integers
(the MILP is infeasible, matching the printed status `Infeasible`), but it
does have a solution in non-negative reals. -/
theorem p4_int_infeasible_real_feasible :
    (¬ ∃ x1 x2 x3 x4 : ℕ, p4FeasibleInt x1 x2 x3 x4) ∧
    (∃ x1 x2 x3 x4 : ℝ, p4FeasibleReal x1 x2 x3 x4) := by
  constructor
  · rintro ⟨a, b, c, d, h1, h2, h3⟩
    omega
  · refine ⟨48 / 11, 304 / 11, 20, 0, by norm_num, by norm_num, by norm_num,
      by norm_num, by norm_num, by norm_num, by norm_num⟩

/-! ## Result printing (per-cell print blocks)

Each problem cell ends in a block of `print` calls.  The blocks are embedded
as functions from the solver's returned status (and the solution values) to
the list of printed lines, keeping the cells' `if`/`else` structure.  A
`Line` abstracts one printed line by what it reports. -/

/-- One printed line: a solver-status line, an objective-value line, a
per-variable value line, or any other message/banner text. -/
inductive Line where
  | status (s : String)
  | objVal (v : ℚ)
  | varVal (name : String) (v : ℚ)
  | msg (s : String)
deriving DecidableEq, Repr

def isStatusLine : Line → Bool
  | .status _ => true
  | _ => false

def isObjLine : Line → Bool
  | .objVal _ => true
  | _ => false

def isVarLine : Line → Bool
  | .varVal _ _ => true
  | _ => false

def hasStatusLine (ls : List Line) : Bool := ls.any isStatusLine

def hasObjLine (ls : List Line) : Bool := ls.any isObjLine

def hasVarLine (ls : List Line) : Bool := ls.any isVarLine

def hasMsg (ls : List Line) (s : String) : Bool := ls.contains (Line.msg s)

/-- `ortools.linear_solver.pywraplp` result statuses with their numeric
codes (`OPTIMAL = 0`, `FEASIBLE = 1`, `INFEASIBLE = 2`, `UNBOUNDED = 3`,
`ABNORMAL = 4`, `NOT_SOLVED = 6`); `solver.Solve()` returns one of these. -/
inductive MPStatus where
  | OPTIMAL | FEASIBLE | INFEASIBLE | UNBOUNDED | ABNORMAL | NOT_SOLVED
deriving DecidableEq, Repr

def mpStatusCode : MPStatus → ℕ
  | .OPTIMAL => 0 | .FEASIBLE => 1 | .INFEASIBLE => 2
  | .UNBOUNDED => 3 | .ABNORMAL => 4 | .NOT_SOLVED => 6

/-- pulp solve statuses; `pulp.LpStatus[status]` yields the shown name. -/
inductive PulpStatus where
  | Optimal | NotSolved | Infeasible | Unbounded | Undefined
deriving DecidableEq, Repr

def lpStatusName : PulpStatus → String
  | .Optimal => "Optimal"
  | .NotSolved => "Not Solved"
  | .Infeasible => "Infeasible"
  | .Unbounded => "Unbounded"
  | .Undefined => "Undefined"

def fieldName : Field → String
  | .I => "I" | .II => "II" | .III => "III"

def riceName : Rice → String
  | .IR8 => "IR8" | .CBC => "CBC" | .IR132 => "IR132"

/-- Variable names `f'x_{f}_{r}'` of the rice notebook's OR-tools cell. -/
def riceVarName (f : Field) (r : Rice) : String :=
  s!"x_{fieldName f}_{riceName r}"

/-- Rice notebook, OR-tools result cell: `if status == pywraplp.Solver.OPTIMAL:`
print `"Status: Optimal"` and one `Field {f}, Rice {r}: ... hectares` line per
variable, `else:` print only
`"The problem does not have an optimal solution."`. -/
def riceOrtoolsResultCell (status : MPStatus) (sol : Field → Rice → ℚ) : List Line :=
  if status = .OPTIMAL then
    Line.status "Optimal" ::
      (fields.map (fun f => rice_types.map (fun r =>
        Line.varVal (riceVarName f r) (sol f r)))).flatten
  else
    [Line.msg "The problem does not have an optimal solution."]

/-- Rice notebook, CPLEX result-printing block: branch on
`result.solver.status == 'ok' and result.solver.termination_condition ==
'optimal'`, `elif ... == 'infeasible'`, `else` print the status only. -/
def riceCplexPrintBlock (solverStatus termCond : String)
    (sol : Field → Rice → ℚ) : List Line :=
  if solverStatus = "ok" ∧ termCond = "optimal" then
    Line.status solverStatus ::
      (fields.map (fun f => rice_types.map (fun r =>
        Line.varVal (riceVarName f r) (sol f r)))).flatten
  else if termCond = "infeasible" then
    [Line.msg "No feasible solution found."]
  else
    [Line.status solverStatus]

/-- Translated from the traceback recorded in the rice notebook's CPLEX solve
cell: when the configured executable path does not exist,
`SolverFactory('cplex', executable=...)` yields an `UnknownSolver` whose
`.solve(model)` raises `RuntimeError("Attempting to use an unavailable
solver. ...")`; when the solver is available the call returns status `ok`,
termination condition `optimal` and the recorded 585-yield solution. -/
def cplexSolve (executableExists : Bool) :
    Except String (String × String × (Field → Rice → ℚ)) :=
  if executableExists then
    .ok ("ok", "optimal", fun f r => (ricePrintedMilpNb f r : ℚ))
  else
    .error "Attempting to use an unavailable solver."

/-- The whole CPLEX solve cell: `solver.solve(model, tee=True)` followed by
the result-printing block.  The cell body contains no `try`/`except`, so an
exception from the solve call propagates and no print runs. -/
def riceCplexCell (executableExists : Bool) : Except String (List Line) :=
  match cplexSolve executableExists with
  | .error e => .error e
  | .ok (s, t, sol) => .ok (riceCplexPrintBlock s t sol)

/-- Main notebook, `LP_Problem_4` pulp cell print block: it prints the status
name, the objective value, a banner, and the four variable values — with no
branching on the status.  (`range(1,5)` is the index list `[1, 2, 3, 4]`.) -/
def p4PulpResultCell (status : PulpStatus) (objective : ℚ)
    (sol : ℕ → ℚ) : List Line :=
  Line.status (lpStatusName status) :: Line.objVal objective ::
    Line.msg "Optimal solution: " ::
      ([1, 2, 3, 4] : List ℕ).map (fun i => Line.varVal ("x" ++ toString i) (sol i))

/-- Main notebook, Problem 1 pyomo/glpk cell print block: it prints
`Optimal value: {model.obj()}`, a banner, and `x{i} = ...` for `i` in
`range(1,5)` — no status line at all and no branching. -/
def p1GlpkResultCell (objective : ℚ) (sol : ℕ → ℚ) : List Line :=
  Line.objVal objective :: Line.msg "Optimal solution: " ::
    ([1, 2, 3, 4] : List ℕ).map (fun i => Line.varVal ("x" ++ toString i) (sol i))

/-- Main notebook, Problem 5 OR-tools cell print block: it prints
`Optimal objective value: ...` and one line per variable name — no status
line and no branching. -/
def p5ResultCell (objective : ℚ) (sol : String → ℚ) : List Line :=
  Line.objVal objective ::
    (["xA", "xB", "xC", "xD"].map (fun n => Line.varVal n (sol n)))

/-- Main notebook, Problem 2 OR-tools cell print block: it prints the numeric
status, then `if status != pywraplp.Solver.OPTIMAL:` a not-optimal message
(refined by a nested `FEASIBLE` check) — but with no `else`, so the
`Solution:` banner, objective and variable values are printed afterwards in
every case. -/
def p2OrtoolsResultCell (status : MPStatus) (objective : ℚ)
    (sol : ℕ → ℚ) : List Line :=
  [Line.status (toString (mpStatusCode status))] ++
  (if status ≠ .OPTIMAL then
    [Line.msg "The problem does not have an optimal solution!"] ++
      (if status = .FEASIBLE then [Line.msg "A potentially suboptimal solution was found"]
       else [Line.msg "The solver could not solve the problem."])
   else []) ++
  ([Line.msg "Solution:", Line.objVal objective, Line.msg "Optimal solution:"] ++
    ([1, 2, 3, 4] : List ℕ).map (fun i => Line.varVal ("x" ++ toString i) (sol i)))

/-- The solution values printed by the `LP_Problem_4` pulp cell
(`x1 = 4.3636364, x2 = 27.636364, x3 = 20.0, x4 = 0.0`). -/
def p4PrintedSol : ℕ → ℚ
  | 1 => 4.3636364 | 2 => 27.636364 | 3 => 20 | _ => 0

/-- The solution printed by the Problem 1 pyomo/glpk cell
(`x1 = 1200.0`, the rest `0.0`). -/
def p1PrintedSol : ℕ → ℚ
  | 1 => 1200 | _ => 0

/-- The rice notebook's printed solution as rational values. -/
def ricePrintedMilpNbQ : Field → Rice → ℚ := fun f r => (ricePrintedMilpNb f r : ℚ)

/-- C2 counterexample: the `LP_Problem_4` pulp cell's recorded run has status
`Infeasible` — not optimal — yet its print block still emits the per-variable
solution values and the objective value, because it never branches on the
status.  This refutes the claim that every problem cell prints a message
*instead of* the values when the status is not optimal. -/
theorem p4_pulp_prints_values_when_infeasible :
    PulpStatus.Infeasible ≠ PulpStatus.Optimal ∧
    hasVarLine (p4PulpResultCell .Infeasible 1381.818192 p4PrintedSol) = true ∧
    hasObjLine (p4PulpResultCell .Infeasible 1381.818192 p4PrintedSol) = true := by
  refine ⟨by decide, by decide, by decide⟩

/-- C2 amended: result printing is cell-specific.  The rice notebook's
OR-tools cell and CPLEX block do branch on the returned status and print the
per-variable values exactly when it is optimal (otherwise only a message or
the bare status); but the pulp cells — `LP_Problem_4` here — print the
status, objective and per-variable values unconditionally, and the Problem 2
OR-tools cell prints a not-optimal message yet still prints the objective and
values afterwards. -/
theorem status_branching_cell_specific :
    (∀ (s : MPStatus) (sol : Field → Rice → ℚ),
      hasVarLine (riceOrtoolsResultCell s sol) = true ↔ s = .OPTIMAL) ∧
    (∀ (s : MPStatus) (sol : Field → Rice → ℚ), s ≠ .OPTIMAL →
      riceOrtoolsResultCell s sol =
        [Line.msg "The problem does not have an optimal solution."]) ∧
    (∀ (st tc : String) (sol : Field → Rice → ℚ), ¬ (st = "ok" ∧ tc = "optimal") →
      hasVarLine (riceCplexPrintBlock st tc sol) = false) ∧
    (∀ (s : PulpStatus) (obj : ℚ) (sol : ℕ → ℚ),
      hasVarLine (p4PulpResultCell s obj sol) = true ∧
      hasObjLine (p4PulpResultCell s obj sol) = true) ∧
    (∀ (s : MPStatus) (obj : ℚ) (sol : ℕ → ℚ), s ≠ .OPTIMAL →
      hasMsg (p2OrtoolsResultCell s obj sol)
        "The problem does not have an optimal solution!" = true ∧
      hasVarLine (p2OrtoolsResultCell s obj sol) = true ∧
      hasObjLine (p2OrtoolsResultCell s obj sol) = true) := by
  refine ⟨?_, ?_, ?_, ?_, ?_⟩
  · intro s sol
    cases s <;> simp [riceOrtoolsResultCell, hasVarLine, isVarLine, fields, rice_types]
  · intro s sol h
    cases s <;> simp_all [riceOrtoolsResultCell]
  · intro st tc sol h
    rw [riceCplexPrintBlock, if_neg h]
    by_cases h2 : tc = "infeasible" <;>
      simp [h2, hasVarLine, isVarLine]
  · intro s obj sol
    exact ⟨by simp [p4PulpResultCell, hasVarLine, isVarLine],
      by simp [p4PulpResultCell, hasObjLine, isObjLine]⟩
  · intro s obj sol h
    refine ⟨?_, ?_, ?_⟩
    · simp [p2OrtoolsResultCell, hasMsg, if_pos h]
    · simp [p2OrtoolsResultCell, hasVarLine, isVarLine]
    · simp [p2OrtoolsResultCell, hasObjLine, isObjLine]

/-- Witness for C2 (amended): the branching facts instantiated at concrete
statuses and the recorded solutions. -/
theorem status_branching_cell_specific_witness :
    hasVarLine (riceOrtoolsResultCell .INFEASIBLE ricePrintedMilpNbQ) = false ∧
    hasVarLine (p4PulpResultCell .Infeasible 1381.818192 p4PrintedSol) = true := by
  constructor
  · have h := status_branching_cell_specific.1 .INFEASIBLE ricePrintedMilpNbQ
    rcases Bool.eq_false_or_eq_true
        (hasVarLine (riceOrtoolsResultCell .INFEASIBLE ricePrintedMilpNbQ)) with ht | hf
    · exact absurd (h.mp ht) (by decide)
    · exact hf
  · exact (status_branching_cell_specific.2.2.2.1 .Infeasible 1381.818192 p4PrintedSol).1

/-- C3 counterexample: the Problem 1 pyomo/glpk cell prints the objective
value and the four variable values but no solver-status line at all, so not
every problem cell prints all three of values, objective and status. -/
theorem p1_glpk_prints_no_status :
    hasStatusLine (p1GlpkResultCell 960 p1PrintedSol) = false ∧
    hasVarLine (p1GlpkResultCell 960 p1PrintedSol) = true ∧
    hasObjLine (p1GlpkResultCell 960 p1PrintedSol) = true := by
  refine ⟨by decide, by decide, by decide⟩

/-! The remaining print blocks, so that every cell's recorded run can be
checked. -/

/-- Problem 1 OR-tools print block: `Optimal Value: ...`,
`Solution: {status}` (the numeric status code), then `x1..x4`. -/
def p1OrtoolsResultCell (status : MPStatus) (objective : ℚ)
    (sol : ℕ → ℚ) : List Line :=
  Line.objVal objective :: Line.status (toString (mpStatusCode status)) ::
    ([1, 2, 3, 4] : List ℕ).map (fun i => Line.varVal ("x" ++ toString i) (sol i))

/-- Problem 3 OR-tools print block: like Problem 2's but with no leading
`Status:` print — only the conditional not-optimal message, then
`Solution:`, the objective and the values. -/
def p3OrtoolsResultCell (status : MPStatus) (objective : ℚ)
    (sol : ℕ → ℚ) : List Line :=
  (if status ≠ .OPTIMAL then
    [Line.msg "The problem does not have an optimal solution!"] ++
      (if status = .FEASIBLE then [Line.msg "A potentially suboptimal solution was found"]
       else [Line.msg "The solver could not solve the problem."])
   else []) ++
  ([Line.msg "Solution:", Line.objVal objective, Line.msg "Optimal solution:"] ++
    ([1, 2, 3, 4] : List ℕ).map (fun i => Line.varVal ("x" ++ toString i) (sol i)))

/-- The pulp print block of the grid-shaped cells (`LP_Problem_6a`, `6b`,
`8a`, `8b` in both notebooks): status name, objective value, banner, then
`x[i][j] = ...` over the whole grid. -/
def gridPulpResultCell (status : PulpStatus) (objective : ℚ) (ni nj : ℕ)
    (sol : ℕ → ℕ → ℚ) : List Line :=
  Line.status (lpStatusName status) :: Line.objVal objective ::
    Line.msg "Optimal solution: " ::
      ((List.range ni).map (fun i => (List.range nj).map (fun j =>
        Line.varVal s!"x[{i}][{j}]" (sol i j)))).flatten

/-- Problem 6 pyomo/couenne print block: `Status: {results.solver.status}`,
the objective, a banner, and the grid values. -/
def p6CouenneResultCell (solverStatus : String) (objective : ℚ)
    (sol : ℕ → ℕ → ℚ) : List Line :=
  Line.status solverStatus :: Line.objVal objective ::
    Line.msg "Optimal solution: " ::
      ((List.range 4).map (fun i => (List.range 5).map (fun j =>
        Line.varVal s!"x[{i}][{j}]" (sol i j)))).flatten

/-- Problem 7 scipy print block: `Status: {results.message}`,
`Optimal value: {-results.fun}`, then a single print reporting all six
rounded variable values (`FI = ..., ..., MIII = ...`) — embedded as one
`varVal` item per variable reported on that line. -/
def p7ResultCell (statusMessage : String) (objective : ℚ)
    (sol : String → ℚ) : List Line :=
  Line.status statusMessage :: Line.objVal objective ::
    (["FI", "FII", "FIII", "MI", "MII", "MIII"].map (fun n => Line.varVal n (sol n)))

/-- Four printed `x1..x4` values as an index function. -/
def solOf4 (a b c d : ℚ) : ℕ → ℚ
  | 1 => a | 2 => b | 3 => c | 4 => d | _ => 0

/-- A printed grid of values as an index function. -/
def gridSolOf (g : List (List ℚ)) : ℕ → ℕ → ℚ :=
  fun i j => (g.getD i []).getD j 0

/-- Problem 5's printed solution. -/
def p5PrintedSol : String → ℚ
  | "xA" => 67.56756756756755 | "xD" => 60.81081081081081 | _ => 0

/-- Problem 7's printed (rounded) solution. -/
def p7PrintedSol : String → ℚ
  | "FI" => 1 | "FII" => 1 | "MIII" => 3 | _ => 0

def p6aPrintedGrid : List (List ℚ) :=
  [[0, 5, 0, 0, 0], [10, 0, 0, 0, 5], [0, 0, 10, 0, 10], [0, 5, 0, 20, 5]]

def p6CouennePrintedGrid : List (List ℚ) :=
  [[0, 3, 0, 0, 2], [6, 0, 0, 0, 9], [2, 3, 10, 5, 0], [2, 4, 0, 15, 9]]

def p6bPrintedGrid : List (List ℚ) :=
  [[0, 5, 0, 0, 0], [10, 0, 0, 0, 5], [0, 0, 15, 0, 5], [0, 5, 0, 15, 10]]

def p8aPrintedGrid : List (List ℚ) := [[0, 25, 5], [0, 0, 20], [25, 0, 15]]

def ricePulpPrintedGrid : List (List ℚ) := [[0, 25, 5], [20, 0, 0], [5, 0, 35]]

/-- Every print block that ran in the notebooks' recorded executions, with
its recorded status, objective and solution values, in notebook order.
The Problem 2 and Problem 3 pulp cells' print blocks are textually identical
to `LP_Problem_4`'s, and the Problem 2 pyomo/gurobi block to Problem 1's
pyomo block, so those embeddings are reused with each cell's recorded
values.  Two cells contribute no output: the Problem 4 OR-tools cell only
creates a solver (it never solves or prints), and the rice notebook's first
CPLEX solve raised before reaching its print block (see
`cplex_unavailable_uncaught`). -/
def recordedCellOutputs : List (String × List Line) :=
  [("p1_pyomo_glpk", p1GlpkResultCell 960 p1PrintedSol),
   ("p1_pyomo_cbc", p1GlpkResultCell 966.666665 (solOf4 1000 0 333.33333 0)),
   ("p1_ortools_a", p1OrtoolsResultCell .OPTIMAL 960 (solOf4 1200 0 0 0)),
   ("p1_ortools_b",
     p1OrtoolsResultCell .OPTIMAL 966.6666666666666 (solOf4 1000 0 333.33333333333326 0)),
   ("p2_pulp", p4PulpResultCell .Optimal 46.5 (solOf4 100 100 150 150)),
   ("p2_pyomo_gurobi", p1GlpkResultCell 46.5 (solOf4 100 100 150 150)),
   ("p2_ortools", p2OrtoolsResultCell .OPTIMAL 46.5 (solOf4 100 100 150 150)),
   ("p3_pulp", p4PulpResultCell .Optimal 107000 (solOf4 16 5 7 22)),
   ("p3_ortools", p3OrtoolsResultCell .OPTIMAL 120500 (solOf4 5 5 24 16)),
   ("p4_pulp", p4PulpResultCell .Infeasible 1381.818192 p4PrintedSol),
   ("p5_ortools", p5ResultCell 68581081.08108108 p5PrintedSol),
   ("p6a_pulp", gridPulpResultCell .Optimal 435 4 5 (gridSolOf p6aPrintedGrid)),
   ("p6_pyomo_couenne", p6CouenneResultCell "ok" 435 (gridSolOf p6CouennePrintedGrid)),
   ("p6b_pulp", gridPulpResultCell .Optimal 405 4 5 (gridSolOf p6bPrintedGrid)),
   ("p7_scipy", p7ResultCell "Optimization terminated successfully." 51 p7PrintedSol),
   ("p8a_pulp", gridPulpResultCell .Optimal 585 3 3 (gridSolOf p8aPrintedGrid)),
   ("p8b_pulp", gridPulpResultCell .Optimal 585 3 3 (gridSolOf p8aPrintedGrid)),
   ("rice_ortools_a", riceOrtoolsResultCell .OPTIMAL ricePrintedMilpNbQ),
   ("rice_ortools_b", riceOrtoolsResultCell .OPTIMAL ricePrintedMilpNbQ),
   ("rice_cplex_b", riceCplexPrintBlock "ok" "optimal" ricePrintedMilpNbQ),
   ("rice_pulp_8a", gridPulpResultCell .Optimal 585 3 3 (gridSolOf ricePulpPrintedGrid)),
   ("rice_pulp_8b", gridPulpResultCell .Optimal 585 3 3 (gridSolOf ricePulpPrintedGrid))]

set_option maxRecDepth 40000 in
/-- C3 amended: on every recorded run that reached its print block, the cell
printed the per-variable solution values — but not every cell prints all
three of values, objective and status: the cells lacking a status line are
exactly Problem 1's two pyomo cells, the Problem 2 pyomo/gurobi cell, the
Problem 3 OR-tools cell and the Problem 5 cell, and the cells lacking an
objective-value line are exactly the rice notebook's two OR-tools runs and
its CPLEX block; every other cell printed all three. -/
theorem printed_fields_per_cell :
    recordedCellOutputs.all (fun out => hasVarLine out.2) = true ∧
    (recordedCellOutputs.filter (fun out => !hasStatusLine out.2)).map Prod.fst =
      ["p1_pyomo_glpk", "p1_pyomo_cbc", "p2_pyomo_gurobi", "p3_ortools",
       "p5_ortools"] ∧
    (recordedCellOutputs.filter (fun out => !hasObjLine out.2)).map Prod.fst =
      ["rice_ortools_a", "rice_ortools_b", "rice_cplex_b"] := by
  refine ⟨by decide, by decide, by decide⟩

/-- C6: when the configured CPLEX executable is unavailable, the solve call
raises and the rice notebook's cell — which has no `try`/`except` — terminates
with the uncaught `RuntimeError`; none of the result-printing branches run,
so no line is produced. -/
theorem cplex_unavailable_uncaught :
    riceCplexCell false = .error "Attempting to use an unavailable solver." ∧
    (riceCplexCell false).toOption = none :=
  ⟨rfl, rfl⟩

/-! ## Syntactic form of the models: constraints as written

Every constraint the notebooks add is a comparison between two affine
expressions.  `AffExpr` records the variable terms (coefficient, variable)
and the constant part of one side, exactly as written in the cell.  Variable
names are the notebook's binding identifiers (for pulp cells these differ
from the `LpVariable` name strings, which are shifted: `x1` holds the
variable named `"x0"`, etc.; the identifiers are what the constraints are
written with). -/

structure AffExpr where
  terms : List (ℚ × String)
  const : ℚ
deriving DecidableEq, Repr

inductive Rel where
  | le | ge | eq
deriving DecidableEq, Repr

structure LinCon where
  lhs : AffExpr
  rel : Rel
  rhs : AffExpr
deriving DecidableEq, Repr

/-- A constraint `terms ≤ c` with a constant right-hand side. -/
def conLe (ts : List (ℚ × String)) (c : ℚ) : LinCon := ⟨⟨ts, 0⟩, .le, ⟨[], c⟩⟩

/-- A constraint `terms ≥ c` with a constant right-hand side. -/
def conGe (ts : List (ℚ × String)) (c : ℚ) : LinCon := ⟨⟨ts, 0⟩, .ge, ⟨[], c⟩⟩

/-- A constraint `terms = c` with a constant right-hand side. -/
def conEq (ts : List (ℚ × String)) (c : ℚ) : LinCon := ⟨⟨ts, 0⟩, .eq, ⟨[], c⟩⟩

/-- A side of a comparison mentions a decision variable (with a non-zero
coefficient). -/
def sideHasVars (e : AffExpr) : Prop := ∃ t ∈ e.terms, t.1 ≠ 0

instance (e : AffExpr) : Decidable (sideHasVars e) := by
  unfold sideHasVars; infer_instance

/-- A constraint places decision variables on both sides of the comparison. -/
def varsBothSides (c : LinCon) : Prop := sideHasVars c.lhs ∧ sideHasVars c.rhs

instance (c : LinCon) : Decidable (varsBothSides c) := by
  unfold varsBothSides; infer_instance

/-! Problem 1 (four manufacturing variables).  The pyomo/glpk cell and the
OR-tools GLOP cell disagree on the `x4` coefficient of the second
constraint: `0.5*x4` in pyomo, `0.4*x4` in OR-tools; likewise in the b)
cells. -/

def p1PyomoCon2 : LinCon :=
  conLe [(0.1, "x1"), (0.4, "x2"), (0.2, "x3"), (0.5, "x4")] 800

def p1PyomoACons : List LinCon :=
  [conLe [(0.5, "x1"), (0.2, "x2"), (0.3, "x3"), (0.6, "x4")] 600,
   p1PyomoCon2]

def p1OrtoolsACons : List LinCon :=
  [conLe [(0.5, "x1"), (0.2, "x2"), (0.3, "x3"), (0.6, "x4")] 600,
   conLe [(0.1, "x1"), (0.4, "x2"), (0.2, "x3"), (0.4, "x4")] 800]

def p1PyomoBCons : List LinCon :=
  [conLe [(0.5, "x1"), (0.2, "x2"), (0.3, "x3"), (0.6, "x4")] 600,
   conLe [(0.1, "x1"), (0.4, "x2"), (0.2, "x3"), (0.5, "x4")] 800,
   conGe [(1, "x1"), (1, "x2")] 1000]

def p1OrtoolsBCons : List LinCon :=
  [conGe [(1, "x1"), (1, "x2")] 1000,
   conLe [(0.5, "x1"), (0.2, "x2"), (0.3, "x3"), (0.6, "x4")] 600,
   conLe [(0.1, "x1"), (0.4, "x2"), (0.2, "x3"), (0.4, "x4")] 800]

/-! Problem 2. -/

def resource : ℚ := 500

def p2PulpCons : List LinCon :=
  [conLe [(1, "x1")] 100, conLe [(1, "x2")] 100,
   conLe [(1, "x3")] 150, conLe [(1, "x4")] 150,
   conGe [(1, "x2"), (1, "x3")] (0.5 * resource),
   conGe [(1, "x1")] (0.1 * resource)]

def p2PyomoCons : List LinCon :=
  [conLe [(1, "x1")] 100, conLe [(1, "x2")] 100,
   conLe [(1, "x3")] 150, conLe [(1, "x4")] 150,
   conGe [(1, "x1")] (0.1 * resource),
   conGe [(1, "x2"), (1, "x3")] (0.5 * resource)]

def p2OrtoolsCons : List LinCon :=
  [conEq [(1, "x1"), (1, "x2"), (1, "x3"), (1, "x4")] 500,
   conLe [(1, "x1")] 100, conLe [(1, "x2")] 100,
   conLe [(1, "x3")] 150, conLe [(1, "x4")] 150,
   conGe [(1, "x2"), (1, "x3")] 250,
   conGe [(1, "x1")] 50]

/-! Problem 3.  The pulp cell's machine-hours constraint has `35 * x3`; the
OR-tools cell's has `25 * x3`. -/

def p3PulpMachineCon : LinCon :=
  conLe [(9, "x1"), (25, "x2"), (35, "x3"), (43, "x4")] 1460

def p3PulpConsAst : List LinCon :=
  [conGe [(1, "x1")] 5, conGe [(1, "x2")] 5,
   conGe [(1, "x3")] 5, conGe [(1, "x4")] 5,
   conEq [(1, "x1"), (1, "x2"), (1, "x3"), (1, "x4")] 50,
   p3PulpMachineCon]

def p3OrtoolsConsAst : List LinCon :=
  [conEq [(1, "x1"), (1, "x2"), (1, "x3"), (1, "x4")] 50,
   conLe [(9, "x1"), (25, "x2"), (25, "x3"), (43, "x4")] 1460,
   conGe [(1, "x1")] 5, conGe [(1, "x2")] 5,
   conGe [(1, "x3")] 5, conGe [(1, "x4")] 5]

/-! Problem 4.  The third constraint is written
`30*x1 + 28*x3 == 25*x2 + 20*x4`: decision variables on both sides. -/

def p4BalanceCon : LinCon :=
  ⟨⟨[(30, "x1"), (28, "x3")], 0⟩, .eq, ⟨[(25, "x2"), (20, "x4")], 0⟩⟩

def p4PulpConsAst : List LinCon :=
  [conEq [(1, "x1"), (1, "x2")] 32,
   conEq [(1, "x3"), (1, "x4")] 20,
   p4BalanceCon]

/-! Problem 5 (three `solver.Constraint(-infinity, ub)` rows filled by
`SetCoefficient`). -/

def p5Cons : List LinCon :=
  [conLe [(0.08, "xA"), (0.12, "xB"), (0.3, "xC"), (0.21, "xD")] 350,
   conLe [(4, "xA"), (9, "xB"), (7, "xC"), (12, "xD")] 1000,
   conLe [(1, "xA"), (1, "xB"), (3, "xC"), (40, "xD")] 2500]

/-! Problem 6 (transportation: per-factory and per-warehouse equality rows
built in loops) and Problem 8 (the rice problem in the same row/column
form). -/

def factory : List ℚ := [5, 15, 20, 30]

def warehouse6a : List ℚ := [10, 10, 10, 20, 20]

def warehouse6b : List ℚ := [10, 10, 15, 15, 20]

/-- The two loops `for i in range(dim_i): prob += lpSum([x[i][j] ...]) ==
supply[i]` and `for j in range(dim_j): prob += lpSum([x[i][j] ...]) ==
demand[j]`. -/
def transportCons (supply demand : List ℚ) : List LinCon :=
  ((List.range supply.length).map (fun i =>
    conEq ((List.range demand.length).map (fun j => ((1 : ℚ), s!"x_{i}_{j}")))
      (supply.getD i 0))) ++
  ((List.range demand.length).map (fun j =>
    conEq ((List.range supply.length).map (fun i => ((1 : ℚ), s!"x_{i}_{j}")))
      (demand.getD j 0)))

def p6aCons : List LinCon := transportCons factory warehouse6a

def p6bCons : List LinCon := transportCons factory warehouse6b

def rice_type : List ℚ := [30, 20, 40]

def field_type : List ℚ := [25, 25, 40]

def p8Cons : List LinCon := transportCons rice_type field_type

/-! Problem 7 (`scipy.optimize.linprog` rows of `A_ub`, including the zero
entries of the coefficient matrix). -/

def p7Cons : List LinCon :=
  [conLe [(1, "x0"), (1, "x1"), (1, "x2"), (0, "x3"), (0, "x4"), (0, "x5")] 2,
   conLe [(0, "x0"), (0, "x1"), (0, "x2"), (1, "x3"), (1, "x4"), (1, "x5")] 3,
   conLe [(1, "x0"), (0, "x1"), (0, "x2"), (1, "x3"), (0, "x4"), (0, "x5")] 1,
   conLe [(0, "x0"), (1, "x1"), (0, "x2"), (0, "x3"), (1, "x4"), (0, "x5")] 2,
   conLe [(0, "x0"), (0, "x1"), (1, "x2"), (0, "x3"), (0, "x4"), (1, "x5")] 3]

/-! Rice notebook constraints in the same syntactic form. -/

def riceOrtoolsConsAst : List LinCon :=
  [conEq (fields.map (fun f => ((1 : ℚ), riceVarName f .IR8))) 30,
   conEq (fields.map (fun f => ((1 : ℚ), riceVarName f .CBC))) 20,
   conEq (fields.map (fun f => ((1 : ℚ), riceVarName f .IR132))) 40,
   conEq (rice_types.map (fun r => ((1 : ℚ), riceVarName .I r))) 25,
   conEq (rice_types.map (fun r => ((1 : ℚ), riceVarName .II r))) 25,
   conEq (rice_types.map (fun r => ((1 : ℚ), riceVarName .III r))) 40]

/-- The scenario-b extra constraint `solver.Add(x[('I', 'IR8')] == 0)` /
`model.no_ir8_field_i = Constraint(expr=model.x['I', 'IR8'] == 0)`. -/
def riceNoIR8Con : LinCon := conEq [((1 : ℚ), riceVarName .I .IR8)] 0

/-- The pyomo rice model's constraints (mathematically the same six rows,
declared as the named components `total_hectares_*` / `total_field_*`). -/
def ricePyomoConsNamed : List (String × LinCon) :=
  [("total_hectares_ir8", conEq (fields.map (fun f => ((1 : ℚ), riceVarName f .IR8))) 30),
   ("total_hectares_cbc", conEq (fields.map (fun f => ((1 : ℚ), riceVarName f .CBC))) 20),
   ("total_hectares_ir132", conEq (fields.map (fun f => ((1 : ℚ), riceVarName f .IR132))) 40),
   ("total_field_i", conEq (rice_types.map (fun r => ((1 : ℚ), riceVarName .I r))) 25),
   ("total_field_ii", conEq (rice_types.map (fun r => ((1 : ℚ), riceVarName .II r))) 25),
   ("total_field_iii", conEq (rice_types.map (fun r => ((1 : ℚ), riceVarName .III r))) 40)]

/-- Every constraint added by any cell of either notebook, one sublist per
cell in notebook order (the rice notebook's pyomo rows are included through
`ricePyomoConsNamed`; its pulp 8a/8b cells and the main notebook's 8a/8b
cells all build `p8Cons`). -/
def allNotebookCons : List LinCon :=
  p1PyomoACons ++ p1PyomoBCons ++ p1OrtoolsACons ++ p1OrtoolsBCons ++
  p2PulpCons ++ p2PyomoCons ++ p2OrtoolsCons ++
  p3PulpConsAst ++ p3OrtoolsConsAst ++
  p4PulpConsAst ++ p5Cons ++
  p6aCons ++ p6aCons ++ p6bCons ++
  p7Cons ++ p8Cons ++ p8Cons ++
  riceOrtoolsConsAst ++ [riceNoIR8Con] ++
  (ricePyomoConsNamed.map (fun nc => nc.2)) ++ [riceNoIR8Con] ++
  p8Cons ++ p8Cons

/-- C4 counterexample: the Problem 4 constraint
`30*x1 + 28*x3 == 25*x2 + 20*x4` is added to the `LP_Problem_4` model and
places decision variables on both sides of the comparison, refuting the
claim that no constraint does. -/
theorem p4_balance_constraint_vars_both_sides :
    p4BalanceCon ∈ p4PulpConsAst ∧ varsBothSides p4BalanceCon := by
  refine ⟨by decide, by decide⟩

/-- C4 amended: every constraint added in either notebook compares a linear
expression over decision variables to a numeric constant — except the single
Problem 4 workload-balance constraint `30*x1 + 28*x3 == 25*x2 + 20*x4`,
which has decision variables on both sides. -/
theorem all_constraints_constant_rhs_except_p4 :
    (∀ c ∈ allNotebookCons, ¬ sideHasVars c.rhs ∨ c = p4BalanceCon) ∧
    varsBothSides p4BalanceCon := by
  refine ⟨by decide, by decide⟩

/-- Witness for C4 (amended): the universal statement instantiated at the
balance constraint itself, whose membership in the constraint list is
discharged by evaluation. -/
theorem all_constraints_constant_rhs_except_p4_witness :
    ¬ sideHasVars p4BalanceCon.rhs ∨ p4BalanceCon = p4BalanceCon :=
  all_constraints_constant_rhs_except_p4.1 p4BalanceCon
    (by simp [allNotebookCons, p4PulpConsAst])

/-- C7 counterexample: the models built through different libraries for the
same word problem are not identical.  Problem 3's pulp machine-hours row
(`35*x3`) is absent from the OR-tools model (which has `25*x3`), and
Problem 1's pyomo second constraint (`0.5*x4`) is absent from the OR-tools
model (which has `0.4*x4`). -/
theorem p1_p3_models_differ :
    p3PulpMachineCon ∈ p3PulpConsAst ∧ p3PulpMachineCon ∉ p3OrtoolsConsAst ∧
    p1PyomoCon2 ∈ p1PyomoACons ∧ p1PyomoCon2 ∉ p1OrtoolsACons := by
  refine ⟨by decide, by decide, by simp [p1PyomoACons], ?_⟩
  intro h
  simp only [p1OrtoolsACons, List.mem_cons, List.not_mem_nil, or_false] at h
  rcases h with h | h <;>
    simp only [p1PyomoCon2, conLe, LinCon.mk.injEq, AffExpr.mk.injEq,
      List.cons.injEq, Prod.mk.injEq] at h <;>
    norm_num at h

/-! ## Variable declarations

One record per decision variable declared anywhere in the notebooks, with
the name string passed to the library, the declared lower bound, and whether
the variable is integer-constrained.  `NonNegativeReals` /
`NonNegativeIntegers` domains, `lowBound=0`, `NumVar(0, ...)` /
`IntVar(0, ...)` and `scipy` bounds `(0, None)` all declare lower bound 0. -/

structure VarDecl where
  name : String
  low : ℚ
  isInteger : Bool
deriving DecidableEq, Repr

/-- Variables `x1..x4` (`for i in range(1,5)` / explicit `NumVar`/`IntVar`
declarations named `x1..x4`). -/
def xVars1to4 (isInt : Bool) : List VarDecl :=
  ([1, 2, 3, 4] : List ℕ).map (fun i => ⟨"x" ++ toString i, 0, isInt⟩)

/-- pulp's `[LpVariable(f"x{i}", lowBound=0, ...) for i in range(4)]`:
name strings `x0..x3`. -/
def xVars0to3 (isInt : Bool) : List VarDecl :=
  ([0, 1, 2, 3] : List ℕ).map (fun i => ⟨"x" ++ toString i, 0, isInt⟩)

/-- Integer grid variables `x_{i}_{j}` for the transportation/rice cells. -/
def gridVars (ni nj : ℕ) : List VarDecl :=
  ((List.range ni).map (fun i =>
    (List.range nj).map (fun j => (⟨s!"x_{i}_{j}", 0, true⟩ : VarDecl)))).flatten

/-- The rice notebook's `solver.IntVar(0, solver.infinity(), f'x_{f}_{r}')`
loop (and its pyomo `Var(fields, rice_types, domain=NonNegativeIntegers)`
declaration, which creates the same indexed family). -/
def riceGridVars : List VarDecl :=
  (fields.map (fun f =>
    rice_types.map (fun r => (⟨riceVarName f r, 0, true⟩ : VarDecl)))).flatten

/-- All decision variables declared in both notebooks, one sublist per cell
in notebook order: Problem 1's four cells, Problem 2's three, Problem 3's
two, Problem 4, Problem 5 (`xA..xD`, `IntVar(0, infinity)`), Problem 6's
three cells, Problem 7 (`linprog` with `bounds = [(0, None)] * 6`),
Problem 8's two cells, then the rice notebook's OR-tools, pyomo and two pulp
cells. -/
def allVarDecls : List VarDecl :=
  xVars1to4 false ++ xVars1to4 false ++ xVars1to4 false ++ xVars1to4 false ++
  xVars0to3 false ++ xVars1to4 false ++ xVars1to4 false ++
  xVars0to3 true ++ xVars1to4 true ++
  xVars0to3 true ++
  (["xA", "xB", "xC", "xD"].map (fun n => (⟨n, 0, true⟩ : VarDecl))) ++
  gridVars 4 5 ++ gridVars 4 5 ++ gridVars 4 5 ++
  ((List.range 6).map (fun i => (⟨"x" ++ toString i, 0, false⟩ : VarDecl))) ++
  gridVars 3 3 ++ gridVars 3 3 ++
  riceGridVars ++ riceGridVars ++ gridVars 3 3 ++ gridVars 3 3

set_option maxRecDepth 40000 in
/-- C5: every decision variable declared in either notebook has declared
lower bound 0, so any returned solution that respects the declared bounds
assigns every variable a non-negative value. -/
theorem all_declared_lower_bounds_zero :
    (∀ d ∈ allVarDecls, d.low = 0) ∧
    (∀ sol : String → ℚ, (∀ d ∈ allVarDecls, d.low ≤ sol d.name) →
      ∀ d ∈ allVarDecls, 0 ≤ sol d.name) := by
  have hz : ∀ d ∈ allVarDecls, d.low = 0 := by decide
  refine ⟨hz, fun sol h d hd => ?_⟩
  have hb := h d hd
  rwa [hz d hd] at hb

set_option maxRecDepth 40000 in
/-- Witness for C5: a concrete bounds-respecting assignment evaluated at the
first declared variable is non-negative. -/
theorem all_declared_lower_bounds_zero_witness :
    (0 : ℚ) ≤ (fun _ : String => (5 : ℚ))
      (VarDecl.name (allVarDecls.getD 0 ⟨"x", 1, false⟩)) :=
  all_declared_lower_bounds_zero.2 (fun _ => 5) (by decide)
    (allVarDecls.getD 0 ⟨"x", 1, false⟩) (by decide)

/-! ## Cell-to-cell state in the rice notebook

In the main notebook every problem cell builds its model from scratch, but
the rice notebook spreads one OR-tools solver over several cells (create,
declare variables, set objective and constraints, solve) and its scenario-b
cell then calls `solver.Add(x[('I', 'IR8')] == 0)` on that *same* solver and
re-solves; likewise `model.no_ir8_field_i = Constraint(...)` is added to the
pyomo model built by earlier cells.  The solver/model is embedded as a state
record and each cell as a state transformer. -/

structure SolverModelState where
  vars : List String
  objective : List (ℚ × String)
  constraints : List LinCon
deriving DecidableEq, Repr

/-- Cell 2: `solver = pywraplp.Solver.CreateSolver('SCIP')` — a fresh, empty
solver. -/
def riceCellCreate : SolverModelState := ⟨[], [], []⟩

/-- Cell 3: the variable-declaration loop `x[(f, r)] = solver.IntVar(...)`. -/
def riceCellVars (s : SolverModelState) : SolverModelState :=
  { s with vars := s.vars ++
      (fields.map (fun f => rice_types.map (fun r => riceVarName f r))).flatten }

/-- The objective terms `x[(f, r)] * yield_matrix[f][r]`. -/
def riceObjectiveTerms : List (ℚ × String) :=
  (fields.map (fun f =>
    rice_types.map (fun r => ((yield_matrix f r : ℚ), riceVarName f r)))).flatten

/-- Cell 4: `solver.Maximize(...)` and the six `solver.Add(...)` calls. -/
def riceCellModel (s : SolverModelState) : SolverModelState :=
  { s with objective := riceObjectiveTerms,
           constraints := s.constraints ++ riceOrtoolsConsAst }

/-- Scenario-b cell: `solver.Add(x[('I', 'IR8')] == 0)` on the existing
solver, before re-solving. -/
def riceCellScenarioB (s : SolverModelState) : SolverModelState :=
  { s with constraints := s.constraints ++ [riceNoIR8Con] }

/-- The solver state the first `solver.Solve()` call sees. -/
def riceStateAtSolveA : SolverModelState :=
  riceCellModel (riceCellVars riceCellCreate)

/-- The solver state the scenario-b `solver.Solve()` call sees. -/
def riceStateAtSolveB : SolverModelState := riceCellScenarioB riceStateAtSolveA

/-- The pyomo rice model's constraint components after the setup cells. -/
def ricePyomoModelAfterSetup : List (String × LinCon) := ricePyomoConsNamed

/-- The pyomo scenario-b cell: `model.no_ir8_field_i = Constraint(expr=
model.x['I', 'IR8'] == 0)` added to the model built by earlier cells. -/
def ricePyomoCellScenarioB (m : List (String × LinCon)) : List (String × LinCon) :=
  m ++ [("no_ir8_field_i", riceNoIR8Con)]

/-- C8 counterexample: the rice notebook's scenario-b solve does *not*
operate on a model constructed within its own cell — the solver it mutates
and re-solves already carries the nine variables and six constraints built
by the earlier cells, and the cell adds exactly one constraint to them. -/
theorem rice_cellB_extends_prior_state :
    riceStateAtSolveB.constraints = riceStateAtSolveA.constraints ++ [riceNoIR8Con] ∧
    riceStateAtSolveA.constraints ≠ [] ∧
    riceStateAtSolveA.constraints.length = 6 ∧
    riceStateAtSolveB.constraints.length = 7 ∧
    riceStateAtSolveA.vars.length = 9 := by
  refine ⟨rfl, by decide, by decide, by decide, by decide⟩

/-! Every model-building cell of the *main* notebook, as a state
transformer.  Each such cell begins with a fresh constructor call
(`model = ConcreteModel()`, `prob = pulp.LpProblem(...)`,
`solver = pywraplp.Solver.CreateSolver(...)`, or — for the scipy cell — new
literal arrays) and then only populates that fresh object, so its
transformer discards the incoming state and returns the cell's own build.
The objective coefficient lists below are the cells' literal tables. -/

def namesOf (ds : List VarDecl) : List String := ds.map (fun d => d.name)

def p1AObjTerms : List (ℚ × String) :=
  [(0.8, "x1"), (0.3, "x2"), (0.38, "x3"), (0.4, "x4")]

def p1BObjTerms : List (ℚ × String) :=
  [(0.8, "x1"), (0.3, "x2"), (0.5, "x3"), (0.4, "x4")]

def p2ObjTerms : List (ℚ × String) :=
  [(0.07, "x1"), (0.08, "x2"), (0.1, "x3"), (0.11, "x4")]

def p3ObjTerms : List (ℚ × String) :=
  [(1000, "x1"), (1500, "x2"), (2500, "x3"), (3000, "x4")]

def p4ObjTerms : List (ℚ × String) :=
  [(30, "x1"), (25, "x2"), (28, "x3"), (20, "x4")]

def p5ObjTerms : List (ℚ × String) :=
  [(250000, "xA"), (350000, "xB"), (380000, "xC"), (850000, "xD")]

/-- Problem 6's `distance` table. -/
def distance : List (List ℚ) :=
  [[5, 1, 4, 6, 7], [3, 4, 2, 7, 8], [4, 3, 1, 7, 9], [6, 5, 4, 9, 11]]

/-- Objective terms `coeffs[i][j] * x[i][j]` of the grid-shaped cells. -/
def gridObjTerms (ni nj : ℕ) (coeffs : List (List ℚ)) : List (ℚ × String) :=
  ((List.range ni).map (fun i =>
    (List.range nj).map (fun j =>
      ((coeffs.getD i []).getD j 0, s!"x_{i}_{j}")))).flatten

/-- `productivity8a` as written (rice-major rows). -/
def productivity8aT : List (List ℚ) := [[4, 8, 6], [6, 9, 7], [5, 4, 6]]

/-- `productivity8b` as written (rice-major rows). -/
def productivity8bT : List (List ℚ) := [[0, 8, 6], [6, 9, 7], [5, 4, 6]]

/-- Problem 7's `obj_fun = [-10, -8, -7, -8, -9, -11]` over the six
`linprog` variables. -/
def p7ObjTerms : List (ℚ × String) :=
  [(-10, "x0"), (-8, "x1"), (-7, "x2"), (-8, "x3"), (-9, "x4"), (-11, "x5")]

def p1PyomoACell (_s : SolverModelState) : SolverModelState :=
  ⟨namesOf (xVars1to4 false), p1AObjTerms, p1PyomoACons⟩

def p1PyomoBCell (_s : SolverModelState) : SolverModelState :=
  ⟨namesOf (xVars1to4 false), p1BObjTerms, p1PyomoBCons⟩

def p1OrtoolsACell (_s : SolverModelState) : SolverModelState :=
  ⟨namesOf (xVars1to4 false), p1AObjTerms, p1OrtoolsACons⟩

def p1OrtoolsBCell (_s : SolverModelState) : SolverModelState :=
  ⟨namesOf (xVars1to4 false), p1BObjTerms, p1OrtoolsBCons⟩

def p2PulpCell (_s : SolverModelState) : SolverModelState :=
  ⟨namesOf (xVars0to3 false), p2ObjTerms, p2PulpCons⟩

def p2PyomoCell (_s : SolverModelState) : SolverModelState :=
  ⟨namesOf (xVars1to4 false), p2ObjTerms, p2PyomoCons⟩

def p2OrtoolsCell (_s : SolverModelState) : SolverModelState :=
  ⟨namesOf (xVars1to4 false), p2ObjTerms, p2OrtoolsCons⟩

def p3PulpCell (_s : SolverModelState) : SolverModelState :=
  ⟨namesOf (xVars0to3 true), p3ObjTerms, p3PulpConsAst⟩

def p3OrtoolsCell (_s : SolverModelState) : SolverModelState :=
  ⟨namesOf (xVars1to4 true), p3ObjTerms, p3OrtoolsConsAst⟩

def p4PulpCell (_s : SolverModelState) : SolverModelState :=
  ⟨namesOf (xVars0to3 true), p4ObjTerms, p4PulpConsAst⟩

/-- The Problem 4 OR-tools cell only runs
`solver = pywraplp.Solver.CreateSolver('SCIP')`: a fresh empty solver. -/
def p4OrtoolsCell (_s : SolverModelState) : SolverModelState := ⟨[], [], []⟩

def p5Cell (_s : SolverModelState) : SolverModelState :=
  ⟨["xA", "xB", "xC", "xD"], p5ObjTerms, p5Cons⟩

def p6aPulpCell (_s : SolverModelState) : SolverModelState :=
  ⟨namesOf (gridVars 4 5), gridObjTerms 4 5 distance, p6aCons⟩

def p6PyomoCell (_s : SolverModelState) : SolverModelState :=
  ⟨namesOf (gridVars 4 5), gridObjTerms 4 5 distance, p6aCons⟩

def p6bPulpCell (_s : SolverModelState) : SolverModelState :=
  ⟨namesOf (gridVars 4 5), gridObjTerms 4 5 distance, p6bCons⟩

def p7Cell (_s : SolverModelState) : SolverModelState :=
  ⟨(List.range 6).map (fun i => "x" ++ toString i), p7ObjTerms, p7Cons⟩

def p8aPulpCell (_s : SolverModelState) : SolverModelState :=
  ⟨namesOf (gridVars 3 3), gridObjTerms 3 3 productivity8aT, p8Cons⟩

def p8bPulpCell (_s : SolverModelState) : SolverModelState :=
  ⟨namesOf (gridVars 3 3), gridObjTerms 3 3 productivity8bT, p8Cons⟩

/-- Every model-building cell of the main notebook, in notebook order. -/
def mainNotebookCells : List (SolverModelState → SolverModelState) :=
  [p1PyomoACell, p1PyomoBCell, p1OrtoolsACell, p1OrtoolsBCell,
   p2PulpCell, p2PyomoCell, p2OrtoolsCell,
   p3PulpCell, p3OrtoolsCell,
   p4PulpCell, p4OrtoolsCell,
   p5Cell,
   p6aPulpCell, p6PyomoCell, p6bPulpCell,
   p7Cell,
   p8aPulpCell, p8bPulpCell]

/-- C8 amended: in the main notebook every cell builds its model entirely
within its own execution — each cell transformer yields the same built model
whatever state earlier cells left behind — but the rice notebook's
scenario-b cells read and mutate objects created by earlier cells: the
OR-tools b cell adds `x_I_IR8 == 0` to the solver holding the earlier
cells' variables, objective and six constraints (changing nothing else, and
yielding a different model depending on the prior state), and the pyomo b
cell appends the `no_ir8_field_i` component to the model assembled by the
earlier cells. -/
theorem rice_scenario_b_mutates_earlier_model :
    (∀ cell ∈ mainNotebookCells, ∀ s t : SolverModelState, cell s = cell t) ∧
    riceStateAtSolveB =
      { riceStateAtSolveA with
          constraints := riceStateAtSolveA.constraints ++ [riceNoIR8Con] } ∧
    riceStateAtSolveB.vars = riceStateAtSolveA.vars ∧
    riceStateAtSolveB.objective = riceStateAtSolveA.objective ∧
    riceCellScenarioB riceStateAtSolveA ≠ riceCellScenarioB riceCellCreate ∧
    ricePyomoCellScenarioB ricePyomoModelAfterSetup =
      ricePyomoModelAfterSetup ++ [("no_ir8_field_i", riceNoIR8Con)] ∧
    ricePyomoCellScenarioB [] ≠ ricePyomoCellScenarioB ricePyomoModelAfterSetup := by
  refine ⟨?_, rfl, rfl, rfl, by decide, rfl, by decide⟩
  intro cell hc s t
  fin_cases hc <;> rfl

/-- Witness for C8 (amended): the first main-notebook cell, run from two
different prior states, builds the same model. -/
theorem rice_scenario_b_mutates_earlier_model_witness :
    p1PyomoACell ⟨[], [], []⟩ = p1PyomoACell ⟨["stale"], [], []⟩ :=
  rice_scenario_b_mutates_earlier_model.1 p1PyomoACell
    (by simp [mainNotebookCells]) ⟨[], [], []⟩ ⟨["stale"], [], []⟩

/-! ## Optima of the multi-library models (Problem 1 and Problem 3)

Direct embeddings of the constraint systems (same rows as the syntactic
lists above) for reasoning about optimal values. -/

/-- Problem 3, pulp model: integer variables with `lowBound=0`, bounds
`x_i >= 5`, head-count `x1+x2+x3+x4 == 50` and machine-hours
`9*x1 + 25*x2 + 35*x3 + 43*x4 <= 1460`. -/
def p3PulpFeasible (x1 x2 x3 x4 : ℕ) : Prop :=
  5 ≤ x1 ∧ 5 ≤ x2 ∧ 5 ≤ x3 ∧ 5 ≤ x4 ∧
  x1 + x2 + x3 + x4 = 50 ∧ 9 * x1 + 25 * x2 + 35 * x3 + 43 * x4 ≤ 1460

instance (x1 x2 x3 x4 : ℕ) : Decidable (p3PulpFeasible x1 x2 x3 x4) := by
  unfold p3PulpFeasible; infer_instance

/-- Problem 3, OR-tools model: same rows except the machine-hours row reads
`9*x1 + 25*x2 + 25*x3 + 43*x4 <= 1460`. -/
def p3OrtoolsFeasible (x1 x2 x3 x4 : ℕ) : Prop :=
  x1 + x2 + x3 + x4 = 50 ∧ 9 * x1 + 25 * x2 + 25 * x3 + 43 * x4 ≤ 1460 ∧
  5 ≤ x1 ∧ 5 ≤ x2 ∧ 5 ≤ x3 ∧ 5 ≤ x4

instance (x1 x2 x3 x4 : ℕ) : Decidable (p3OrtoolsFeasible x1 x2 x3 x4) := by
  unfold p3OrtoolsFeasible; infer_instance

/-- The Problem 3 objective `1000*x1 + 1500*x2 + 2500*x3 + 3000*x4`
(identical in both cells). -/
def p3Objective (x1 x2 x3 x4 : ℕ) : ℕ :=
  1000 * x1 + 1500 * x2 + 2500 * x3 + 3000 * x4

/-- Problem 1a, pyomo model: non-negative reals (over ℚ here),
`0.5*x1 + 0.2*x2 + 0.3*x3 + 0.6*x4 <= 600` and
`0.1*x1 + 0.4*x2 + 0.2*x3 + 0.5*x4 <= 800`. -/
def p1PyomoAFeasible (x1 x2 x3 x4 : ℚ) : Prop :=
  0 ≤ x1 ∧ 0 ≤ x2 ∧ 0 ≤ x3 ∧ 0 ≤ x4 ∧
  0.5 * x1 + 0.2 * x2 + 0.3 * x3 + 0.6 * x4 ≤ 600 ∧
  0.1 * x1 + 0.4 * x2 + 0.2 * x3 + 0.5 * x4 ≤ 800

/-- Problem 1a, OR-tools model: the second constraint reads
`0.1*x1 + 0.4*x2 + 0.2*x3 + 0.4*x4 <= 800` instead. -/
def p1OrtoolsAFeasible (x1 x2 x3 x4 : ℚ) : Prop :=
  0 ≤ x1 ∧ 0 ≤ x2 ∧ 0 ≤ x3 ∧ 0 ≤ x4 ∧
  0.5 * x1 + 0.2 * x2 + 0.3 * x3 + 0.6 * x4 ≤ 600 ∧
  0.1 * x1 + 0.4 * x2 + 0.2 * x3 + 0.4 * x4 ≤ 800

/-- The Problem 1a objective `0.8*x1 + 0.3*x2 + 0.38*x3 + 0.4*x4`
(identical in both cells). -/
def p1AObjective (x1 x2 x3 x4 : ℚ) : ℚ :=
  0.8 * x1 + 0.3 * x2 + 0.38 * x3 + 0.4 * x4

/-- C7 amended: the multi-library models are not the same mathematical
program.  For Problem 3 the divergence matters: the pulp model's optimum is
107000 (attained at the printed `(16, 5, 7, 22)`), the OR-tools model's is
120500 (attained at the printed `(5, 5, 24, 16)`), and these differ.  For
Problem 1a the two models differ only in an `x4` coefficient that is slack
at the optimum, and both have optimum 960, attained at the printed
`(1200, 0, 0, 0)`. -/
theorem p3_optima_differ_p1_agree :
    (∀ x1 x2 x3 x4 : ℕ, p3PulpFeasible x1 x2 x3 x4 →
      p3Objective x1 x2 x3 x4 ≤ 107000) ∧
    p3PulpFeasible 16 5 7 22 ∧ p3Objective 16 5 7 22 = 107000 ∧
    (∀ x1 x2 x3 x4 : ℕ, p3OrtoolsFeasible x1 x2 x3 x4 →
      p3Objective x1 x2 x3 x4 ≤ 120500) ∧
    p3OrtoolsFeasible 5 5 24 16 ∧ p3Objective 5 5 24 16 = 120500 ∧
    (107000 : ℕ) ≠ 120500 ∧
    (∀ x1 x2 x3 x4 : ℚ, p1PyomoAFeasible x1 x2 x3 x4 →
      p1AObjective x1 x2 x3 x4 ≤ 960) ∧
    (∀ x1 x2 x3 x4 : ℚ, p1OrtoolsAFeasible x1 x2 x3 x4 →
      p1AObjective x1 x2 x3 x4 ≤ 960) ∧
    p1PyomoAFeasible 1200 0 0 0 ∧ p1OrtoolsAFeasible 1200 0 0 0 ∧
    p1AObjective 1200 0 0 0 = 960 := by
  refine ⟨?_, by decide, by decide, ?_, by decide, by decide, by decide,
    ?_, ?_, ?_, ?_, ?_⟩
  · intro x1 x2 x3 x4 h
    obtain ⟨h1, h2, h3, h4, h5, h6⟩ := h
    unfold p3Objective
    omega
  · intro x1 x2 x3 x4 h
    obtain ⟨h1, h2, h3, h4, h5, h6⟩ := h
    unfold p3Objective
    omega
  · intro x1 x2 x3 x4 h
    obtain ⟨n1, n2, n3, n4, hc1, hc2⟩ := h
    unfold p1AObjective
    nlinarith [hc1, n1, n2, n3, n4]
  · intro x1 x2 x3 x4 h
    obtain ⟨n1, n2, n3, n4, hc1, hc2⟩ := h
    unfold p1AObjective
    nlinarith [hc1, n1, n2, n3, n4]
  · unfold p1PyomoAFeasible
    norm_num
  · unfold p1OrtoolsAFeasible
    norm_num
  · unfold p1AObjective
    norm_num

/-- Witness for C7 (amended): both Problem 3 bounds instantiated at the
cells' printed solutions, and the Problem 1 bound at its printed solution,
hypotheses discharged by evaluation. -/
theorem p3_optima_differ_p1_agree_witness :
    p3Objective 16 5 7 22 ≤ 107000 ∧ p3Objective 5 5 24 16 ≤ 120500 ∧
    p1AObjective 1200 0 0 0 ≤ 960 :=
  ⟨p3_optima_differ_p1_agree.1 16 5 7 22 (by decide),
   p3_optima_differ_p1_agree.2.2.2.1 5 5 24 16 (by decide),
   p3_optima_differ_p1_agree.2.2.2.2.2.2.2.1 1200 0 0 0
     (by unfold p1PyomoAFeasible; norm_num)⟩

end LPNotebooks
